import Mathlib

/-!
Verification of the SpatialCheckProMax AI training pipeline
(`src/AI_Engine/training/ai_training_pipeline.py`) against its
natural-language specification.

The network, loss, dataset padding and trainer loop are embedded over ℚ
(the python code runs float32/float64 tensor arithmetic; the claims under
study are algebraic, so exact rational arithmetic is the faithful idealised
semantics, and every definition stays executable).  The data synthesizer
(`inject_vertex_noise`, `create_topology_errors`) computes euclidean norms
and trigonometric functions, so it is embedded over ℝ.

Randomness (numpy/`random` draws) is passed in as explicit parameters:
angles, distances, affected index sets, direction vectors, chosen indices.
-/

/-! ### Torch building blocks -/

/-- An `nn.Linear(din, dout)` layer: an affine map given by a weight matrix
and a bias vector. -/
structure Linear (din dout : ℕ) where
  weight : Fin dout → Fin din → ℚ
  bias : Fin dout → ℚ

/-- Application of a linear layer to one feature vector:
`(W v + b)` per output coordinate. -/
def Linear.apply {din dout : ℕ} (l : Linear din dout) (v : Fin din → ℚ) : Fin dout → ℚ :=
  fun o => (∑ i, l.weight o i * v i) + l.bias o

/-- ReLU applied to a feature vector. -/
def reluV {k : ℕ} (v : Fin k → ℚ) : Fin k → ℚ :=
  fun c => max (v c) 0

/-- Eval-mode parameters of one `nn.BatchNorm1d(d)`: the learned affine
pair `gamma`/`beta` and the frozen running statistics.  PyTorch normalizes
with `(v - running_mean) / sqrt(running_var + eps)`; the factor
`1 / sqrt(running_var + eps)` is carried here as the precomputed field
`invStd` (any `running_var ≥ 0` yields some `invStd > 0`, and the examples
below pick `running_var = 1 - eps` so that `invStd = 1` exactly). -/
structure BatchNorm (d : ℕ) where
  gamma : Fin d → ℚ
  beta : Fin d → ℚ
  runningMean : Fin d → ℚ
  invStd : Fin d → ℚ

/-- Eval-mode batch normalization of one scalar activation of channel `c`:
`(v - mean_c) * invStd_c * gamma_c + beta_c`.  In eval mode `BatchNorm1d`
acts elementwise per channel, independent of the batch and vertex axes. -/
def BatchNorm.applyEval {d : ℕ} (bn : BatchNorm d) (c : Fin d) (v : ℚ) : ℚ :=
  (v - bn.runningMean c) * bn.invStd c * bn.gamma c + bn.beta c

/-! ### GraphConvLayer (source lines 422-457) -/

/-- Parameters of `GraphConvLayer`: the self transform `self.linear` and the
neighbor transform `self.neighbor_linear`. -/
structure GraphConvLayer (d : ℕ) where
  linear : Linear d d
  neighborLinear : Linear d d

/-- Forward pass of `GraphConvLayer` on one batch element
(`x: [n_nodes, d]`, `mask: [n_nodes]`).  `torch.roll(x, 1, dims=1)` places
`x[i-1]` at position `i` and `torch.roll(x, -1, dims=1)` places `x[i+1]`
there (cyclically), so the neighbor sum at `i` is `x[i-1] + x[i+1]`; the
output is `(linear(x) + neighbor_linear(prev + next)) * mask`. -/
def GraphConvLayer.forward {d n : ℕ} [NeZero n] (l : GraphConvLayer d)
    (x : Fin n → Fin d → ℚ) (mask : Fin n → ℚ) : Fin n → Fin d → ℚ :=
  fun i c =>
    (l.linear.apply (x i) c +
      l.neighborLinear.apply (fun j => x (i - 1) j + x (i + 1) j) c) * mask i

/-! ### GeometryGNN (source lines 460-548) -/

/-- Parameters of `GeometryGNN`: the input embedding `Linear(2, d)`, the
stack of `(GraphConvLayer, BatchNorm1d)` pairs, and the output head
`Sequential(Linear(d, d/2), ReLU, Linear(d/2, 2))`. -/
structure GeometryGNN (d : ℕ) where
  inputEmbed : Linear 2 d
  layers : List (GraphConvLayer d × BatchNorm d)
  out1 : Linear d (d / 2)
  out2 : Linear (d / 2) 2

/-- Input embedding `h = self.input_embed(x)` on one batch element. -/
def gnnEmbed {d n : ℕ} (m : GeometryGNN d) (x : Fin n → Fin 2 → ℚ) :
    Fin n → Fin d → ℚ :=
  fun i => m.inputEmbed.apply (x i)

/-- One iteration of the layer loop of `GeometryGNN.forward` in eval mode:
conv, batch normalization, ReLU, dropout (identity in eval mode), and the
residual connection `h = h + h_new`. -/
def gnnLayerStep {d n : ℕ} [NeZero n] (cb : GraphConvLayer d × BatchNorm d)
    (mask : Fin n → ℚ) (h : Fin n → Fin d → ℚ) : Fin n → Fin d → ℚ :=
  fun i c => h i c + max (cb.2.applyEval c (cb.1.forward h mask i c)) 0

/-- Hidden state after the whole conv/batchnorm stack. -/
def gnnHidden {d n : ℕ} [NeZero n] (m : GeometryGNN d)
    (x : Fin n → Fin 2 → ℚ) (mask : Fin n → ℚ) : Fin n → Fin d → ℚ :=
  m.layers.foldl (fun h cb => gnnLayerStep cb mask h) (gnnEmbed m x)

/-- Output head `self.output_layer(h)`: `Linear(d, d/2)` then ReLU then
`Linear(d/2, 2)`, applied per vertex. -/
def gnnHead {d n : ℕ} (m : GeometryGNN d) (h : Fin n → Fin d → ℚ) :
    Fin n → Fin 2 → ℚ :=
  fun i => m.out2.apply (reluV (m.out1.apply (h i)))

/-- Eval-mode forward pass of `GeometryGNN` on one batch element: embed,
run the conv/batchnorm/ReLU/dropout/residual stack, apply the output head,
then zero out masked positions (`output = output * mask.unsqueeze(-1)`).
In eval mode dropout is the identity and batch normalization uses the
frozen running statistics elementwise, so the forward pass factors through
the batch axis and is stated per batch element. -/
def GeometryGNN.forwardEval {d n : ℕ} [NeZero n] (m : GeometryGNN d)
    (x : Fin n → Fin 2 → ℚ) (mask : Fin n → ℚ) : Fin n → Fin 2 → ℚ :=
  fun i c => gnnHead m (gnnHidden m x mask) i c * mask i

/-- Forward pass with the optional mask argument of the source
(`mask: Optional[torch.Tensor] = None`): when the mask is absent the code
substitutes `torch.ones(batch_size, n_nodes)`. -/
def GeometryGNN.forwardEvalOpt {d n : ℕ} [NeZero n] (m : GeometryGNN d)
    (x : Fin n → Fin 2 → ℚ) (maskOpt : Option (Fin n → ℚ)) : Fin n → Fin 2 → ℚ :=
  GeometryGNN.forwardEval m x (maskOpt.getD (fun _ => 1))

/-! ### Training-mode batch statistics of BatchNorm1d

During `Trainer.train_epoch` the model runs with `self.model.train()`, so
each `BatchNorm1d` normalizes with the statistics of the current batch and
writes its running statistics (exponential moving average with the default
momentum 0.1, plus a batch counter).  The normalizing denominator is
`sqrt(var + eps)` with `eps = 1e-5`. -/

/-- Epsilon of `nn.BatchNorm1d` (PyTorch default `1e-5`). -/
def bnEps : ℚ := 1 / 100000

/-- Momentum of `nn.BatchNorm1d` (PyTorch default `0.1`). -/
def bnMomentum : ℚ := 1 / 10

/-- Mean over the batch and vertex axes of one channel's activations
(`BatchNorm1d` sees the tensor as `[batch, channels, n_nodes]` and reduces
over batch and nodes). -/
def bnBatchMean {B n : ℕ} (x : Fin B → Fin n → ℚ) : ℚ :=
  (∑ b, ∑ i, x b i) / (B * n)

/-- Biased variance over the batch and vertex axes of one channel: this is
what training-mode normalization divides through (inside a square root,
after adding `bnEps`). -/
def bnBatchVar {B n : ℕ} (x : Fin B → Fin n → ℚ) : ℚ :=
  (∑ b, ∑ i, (x b i - bnBatchMean x) ^ 2) / (B * n)

/-- Unbiased variance over the batch and vertex axes of one channel: this is
what the running-variance update uses. -/
def bnUnbiasedVar {B n : ℕ} (x : Fin B → Fin n → ℚ) : ℚ :=
  (∑ b, ∑ i, (x b i - bnBatchMean x) ^ 2) / ((B * n : ℚ) - 1)

/-- Mutable per-channel state of one `BatchNorm1d`: the running mean, the
running variance and the batch counter. -/
structure BNRunningState where
  runningMean : ℚ
  runningVar : ℚ
  numBatchesTracked : ℕ
deriving DecidableEq

/-- State write of one training-mode `BatchNorm1d` application to one
channel: running mean and variance move by an exponential average with
momentum `0.1` towards the batch statistics, and the batch counter is
incremented. -/
def bnTrainUpdate {B n : ℕ} (x : Fin B → Fin n → ℚ) (st : BNRunningState) :
    BNRunningState :=
  { runningMean := (1 - bnMomentum) * st.runningMean + bnMomentum * bnBatchMean x
    runningVar := (1 - bnMomentum) * st.runningVar + bnMomentum * bnUnbiasedVar x
    numBatchesTracked := st.numBatchesTracked + 1 }

/-- State write performed on channel `c` of the FIRST `BatchNorm1d` of the
model during one training-mode forward over a batch `x` with mask `mask`:
that layer receives `conv_layers[0](input_embed(x), mask)` (transposed),
so its update is `bnTrainUpdate` of exactly those activations.  A model
with an empty layer list has no batch normalization and leaves the state
unchanged.  Later layers cannot influence this first write. -/
def gnnFirstBNUpdate {d n B : ℕ} [NeZero n] (m : GeometryGNN d)
    (x : Fin B → Fin n → Fin 2 → ℚ) (mask : Fin B → Fin n → ℚ) (c : Fin d)
    (st : BNRunningState) : BNRunningState :=
  match m.layers with
  | [] => st
  | (cv, _) :: _ =>
      bnTrainUpdate (fun b i => cv.forward (gnnEmbed m (x b)) (mask b) i c) st

/-! ### GeometryLoss (source lines 555-610) -/

/-- Epsilon guarding the loss denominators (`1e-8` in the source). -/
def lossEps : ℚ := 1 / 100000000

/-- Masked MSE component of `GeometryLoss.forward`:
`F.mse_loss(pred * mask, target * mask, reduction='sum') / (mask.sum() + 1e-8)`
over a batch of predicted and target offset tensors `[B, n, 2]` with mask
`[B, n]`. -/
def maskedMse {B n : ℕ} (pred target : Fin B → Fin n → Fin 2 → ℚ)
    (mask : Fin B → Fin n → ℚ) : ℚ :=
  (∑ b, ∑ i, ∑ c, (pred b i c * mask b i - target b i c * mask b i) ^ 2) /
    ((∑ b, ∑ i, mask b i) + lossEps)

/-- Smoothness component of `GeometryLoss.forward`: with
`corrected = input_coords + pred_offsets`, it sums
`((corrected - roll(corrected, 1))² + (corrected - roll(corrected, -1))²) * mask`
over all axes and divides by `mask.sum() + 1e-8`. -/
def smoothnessLoss {B n : ℕ} [NeZero n]
    (inputCoords pred : Fin B → Fin n → Fin 2 → ℚ)
    (mask : Fin B → Fin n → ℚ) : ℚ :=
  (∑ b, ∑ i, ∑ c,
      (((inputCoords b i c + pred b i c) - (inputCoords b (i - 1) c + pred b (i - 1) c)) ^ 2 +
        ((inputCoords b i c + pred b i c) - (inputCoords b (i + 1) c + pred b (i + 1) c)) ^ 2) *
        mask b i) /
    ((∑ b, ∑ i, mask b i) + lossEps)

/-! ### Dataset padding (source lines 271-289 and 389-415) -/

/-- One cached training sample of either dataset variant: the clean,
perturbed and offset coordinate arrays and the true vertex count.  The
arrays are total functions read only on `[0, n)`. -/
structure StoredSample where
  clean : ℕ → ℚ × ℚ
  noisy : ℕ → ℚ × ℚ
  offsets : ℕ → ℚ × ℚ
  n : ℕ

/-- Zero sample used as the lookup default. -/
def dummySample : StoredSample :=
  { clean := fun _ => (0, 0), noisy := fun _ => (0, 0), offsets := fun _ => (0, 0), n := 0 }

/-- One padded batch element as returned by `__getitem__`: `input` and
`target` of length `max_vertices`, a parallel mask and the vertex count. -/
structure BatchElement (maxV : ℕ) where
  input : Fin maxV → ℚ × ℚ
  target : Fin maxV → ℚ × ℚ
  mask : Fin maxV → ℚ
  nVertices : ℕ

/-- Zero-padding of a length-`n` coordinate array into a fixed-capacity
array (`padded = np.zeros((max_vertices, 2)); padded[:n] = data`). -/
def padVec (maxV n : ℕ) (data : ℕ → ℚ × ℚ) : Fin maxV → ℚ × ℚ :=
  fun i => if i.val < n then data i.val else (0, 0)

/-- Validity mask (`mask = np.zeros(max_vertices); mask[:n] = 1.0`). -/
def padMask (maxV n : ℕ) : Fin maxV → ℚ :=
  fun i => if i.val < n then 1 else 0

/-- Body of `GeometryDataset.__getitem__`: pad the perturbed coordinates and
the offsets to `max_vertices` and build the mask. -/
def GeometryDataset.getItem (maxV : ℕ) (s : StoredSample) : BatchElement maxV :=
  { input := padVec maxV s.n s.noisy
    target := padVec maxV s.n s.offsets
    mask := padMask maxV s.n
    nVertices := s.n }

/-- All-zero fully-masked dummy element returned by
`FGDBGeometryDataset.__getitem__` when the dataset is empty. -/
def dummyElement (maxV : ℕ) : BatchElement maxV :=
  { input := fun _ => (0, 0)
    target := fun _ => (0, 0)
    mask := fun _ => 0
    nVertices := 0 }

/-- Body of `FGDBGeometryDataset.__getitem__`: the all-zero dummy element on
an empty dataset, otherwise the same padding code as
`GeometryDataset.__getitem__` applied to `self.data[idx]`. -/
def FGDBGeometryDataset.getItem (maxV : ℕ) (data : List StoredSample) (idx : ℕ) :
    BatchElement maxV :=
  match data with
  | [] => dummyElement maxV
  | _ => GeometryDataset.getItem maxV (data.getD idx dummySample)

/-! ### FGDBGeometryDataset filtering (source lines 360-397) -/

/-- A geometry as handed to `FGDBGeometryDataset` by the loader: a closed
ring keeps shapely's duplicated closure point in `coords`, an open chain
does not. -/
structure RawGeom where
  isRing : Bool
  coords : List (ℚ × ℚ)

/-- Vertex count as computed by `_prepare_samples`:
`len(geom.exterior.coords) - 1` for a polygon, `len(geom.coords)` for a
line. -/
def rawNVertices (g : RawGeom) : ℕ :=
  if g.isRing then g.coords.length - 1 else g.coords.length

/-- Filter predicate of `_prepare_samples`: a geometry is skipped when
`n_vertices > self.max_vertices or n_vertices < 3`. -/
def fgdbKeep (maxV : ℕ) (g : RawGeom) : Bool :=
  !(decide (maxV < rawNVertices g) || decide (rawNVertices g < 3))

/-- Geometries surviving the `_prepare_samples` filter. -/
def fgdbFilterGeoms (maxV : ℕ) (gs : List RawGeom) : List RawGeom :=
  gs.filter (fgdbKeep maxV)

/-- Cached sample list built by `_prepare_samples`: each surviving geometry
is handed to the synthesizer (`inject_vertex_noise`, uniform-noise mode);
the synthesizer together with its random draws for this run is the
parameter `synth`. -/
def fgdbPrepareSamples (maxV : ℕ) (synth : RawGeom → StoredSample)
    (gs : List RawGeom) : List StoredSample :=
  (fgdbFilterGeoms maxV gs).map synth

/-- Body of `FGDBGeometryDataset.__len__`:
`len(self.data) if self.data else 1`. -/
def fgdbCount (data : List StoredSample) : ℕ :=
  if data.isEmpty then 1 else data.length

/-! ### Trainer checkpoint policy (source lines 703-759) -/

/-- One persisted checkpoint of `Trainer.save_checkpoint`, keeping the
run-dependent fields: the epoch it was written in, the file name, the
`best_loss` field and the per-epoch tracked-metric history written into it.
The model weights, optimizer state and config are opaque payloads copied
verbatim into every checkpoint and are not modelled.  `bestLoss` is an
`Option ℚ` with `none` standing for the initial `float('inf')`. -/
structure SavedCheckpoint where
  epoch : ℕ
  fileName : String
  bestLoss : Option ℚ
  history : List ℚ
deriving DecidableEq

/-- Comparison `current_loss < self.best_loss` where the initial best loss
is `float('inf')` (modelled as `none`). -/
def ltBest (l : ℚ) (best : Option ℚ) : Bool :=
  match best with
  | none => true
  | some b => decide (l < b)

/-- Running best loss after folding a list of epoch losses into an initial
best, exactly as the loop updates `self.best_loss`. -/
def runningBest (best : Option ℚ) (ls : List ℚ) : Option ℚ :=
  ls.foldl (fun acc l => if ltBest l acc then some l else acc) best

/-- File name of the improvement checkpoint. -/
def bestFileName : String := "best_model.pt"

/-- File name of the periodic checkpoint of epoch number `m` (1-based). -/
def epochFileName (m : ℕ) : String := "model_epoch_" ++ toString m ++ ".pt"

/-- Checkpoint-writing behaviour of `Trainer.train`, folded over the
per-epoch tracked losses `ls` starting at epoch index `e` with current best
loss `best` and metric history `hist`: each epoch appends its metrics to
the history, saves `best_model.pt` after updating `best_loss` when the
tracked loss improves on it, and saves `model_epoch_{epoch+1}.pt` when
`(epoch + 1) % 10 == 0`. -/
def trainerRun : List ℚ → ℕ → Option ℚ → List ℚ → List SavedCheckpoint
  | [], _, _, _ => []
  | l :: rest, e, best, hist =>
    (if ltBest l best then
        [{ epoch := e, fileName := bestFileName,
           bestLoss := if ltBest l best then some l else best,
           history := hist ++ [l] }]
      else []) ++
    (if (e + 1) % 10 = 0 then
        [{ epoch := e, fileName := epochFileName (e + 1),
           bestLoss := if ltBest l best then some l else best,
           history := hist ++ [l] }]
      else []) ++
    trainerRun rest (e + 1) (if ltBest l best then some l else best) (hist ++ [l])

/-- Tracked per-epoch loss sequence of `Trainer.train`:
`val_metrics["loss"] if val_metrics else train_metrics["loss"]`, i.e. the
validation losses when a validation loader is supplied, else the training
losses. -/
def trackedLosses (trainL : List ℚ) : Option (List ℚ) → List ℚ
  | some valL => valL
  | none => trainL

/-! ### Noise/Error synthesizer (source lines 62-166), over ℝ -/

/-- Euclidean norm of a 2-D vector, `np.linalg.norm`. -/
noncomputable def vnorm (v : ℝ × ℝ) : ℝ :=
  Real.sqrt (v.1 ^ 2 + v.2 ^ 2)

/-- Epsilon guarding the direction normalizations of the synthesizer
(`1e-8` in the source). -/
noncomputable def synthEps : ℝ := 1 / 100000000

/-- Epsilon-guarded unit direction `d / (np.linalg.norm(d) + 1e-8)`. -/
noncomputable def unitDir (v : ℝ × ℝ) : ℝ × ℝ :=
  (v.1 / (vnorm v + synthEps), v.2 / (vnorm v + synthEps))

/-- Body of `inject_vertex_noise` on an extracted coordinate array: each
vertex is displaced by `(cos θ_i, sin θ_i) * dist_i` where the angles and
distances are the random draws of the call, and the returned triple is
`(clean, noisy, offsets)` with `noisy = clean + noise` and
`offsets = clean - noisy`. -/
noncomputable def inject_vertex_noise {n : ℕ} (clean : Fin n → ℝ × ℝ)
    (theta dist : Fin n → ℝ) :
    (Fin n → ℝ × ℝ) × (Fin n → ℝ × ℝ) × (Fin n → ℝ × ℝ) :=
  let noisy : Fin n → ℝ × ℝ := fun i =>
    ((clean i).1 + Real.cos (theta i) * dist i,
     (clean i).2 + Real.sin (theta i) * dist i)
  (clean, noisy, fun i =>
    ((clean i).1 - (noisy i).1, (clean i).2 - (noisy i).2))

/-- Cyclic array access `coords[k % n]`. -/
def cyc {n : ℕ} [NeZero n] {α : Type} (coords : Fin n → α) (k : ℕ) : α :=
  coords ⟨k % n, Nat.mod_lt _ (Nat.pos_of_ne_zero (NeZero.ne n))⟩

/-- Midpoint direction of the spike perturbation (source lines 154-156):
`(prev_pt + next_pt) / 2 - error_coords[idx]` where
`prev_pt = error_coords[idx - 1]` and
`next_pt = error_coords[(idx + 1) % n_points]`.  The source indexes
`idx - 1` directly, which for the drawn `idx ∈ [1, n-2]` agrees with the
cyclic access used here. -/
noncomputable def spikeMid {n : ℕ} [NeZero n] (coords : Fin n → ℝ × ℝ)
    (idx : ℕ) : ℝ × ℝ :=
  (((cyc coords (idx - 1)).1 + (cyc coords (idx + 1)).1) / 2 - (cyc coords idx).1,
   ((cyc coords (idx - 1)).2 + (cyc coords (idx + 1)).2) / 2 - (cyc coords idx).2)

/-- Spike-mode perturbation (source lines 149-158): the vertex at `idx` is
moved by `-unitDir(mid) * error_magnitude * 3`, every other vertex is left
unchanged. -/
noncomputable def spikeError {n : ℕ} [NeZero n] (coords : Fin n → ℝ × ℝ)
    (idx : ℕ) (mag : ℝ) : Fin n → ℝ × ℝ :=
  fun i =>
    if i.val = idx then
      ((cyc coords idx).1 - (unitDir (spikeMid coords idx)).1 * mag * 3,
       (cyc coords idx).2 - (unitDir (spikeMid coords idx)).2 * mag * 3)
    else coords i

/-- The four topology-error sub-types of `create_topology_errors` (the
"random" mode draws one of these uniformly before perturbing). -/
inductive TopoErrorKind
  | gap
  | overlap
  | spike
  | shift

/-- Perturbed coordinates of `create_topology_errors`: gap pulls each
affected vertex inward along its drawn unit direction by the magnitude,
overlap pushes it outward, spike calls the spike perturbation when
`n ≥ 3` (and leaves the coordinates untouched otherwise), and shift
translates every vertex by one drawn vector.  `affected` and `dirs` are
the random draws of the gap/overlap modes, `idx` the drawn interior index
of the spike mode, `shiftVec` the drawn translation of the shift mode. -/
noncomputable def topoErrorCoords {n : ℕ} [NeZero n] (coords : Fin n → ℝ × ℝ)
    (kind : TopoErrorKind) (mag : ℝ) (affected : Finset (Fin n))
    (dirs : Fin n → ℝ × ℝ) (idx : ℕ) (shiftVec : ℝ × ℝ) : Fin n → ℝ × ℝ :=
  match kind with
  | .gap => fun i =>
      if i ∈ affected then
        ((coords i).1 - (unitDir (dirs i)).1 * mag,
         (coords i).2 - (unitDir (dirs i)).2 * mag)
      else coords i
  | .overlap => fun i =>
      if i ∈ affected then
        ((coords i).1 + (unitDir (dirs i)).1 * mag,
         (coords i).2 + (unitDir (dirs i)).2 * mag)
      else coords i
  | .spike => if 3 ≤ n then spikeError coords idx mag else coords
  | .shift => fun i =>
      ((coords i).1 + shiftVec.1, (coords i).2 + shiftVec.2)

/-- Body of `create_topology_errors` on an extracted coordinate array: the
clean coordinates, the perturbed coordinates of the drawn sub-type, and
`offsets = clean_coords - error_coords` (source line 165). -/
noncomputable def create_topology_errors {n : ℕ} [NeZero n]
    (coords : Fin n → ℝ × ℝ) (kind : TopoErrorKind) (mag : ℝ)
    (affected : Finset (Fin n)) (dirs : Fin n → ℝ × ℝ) (idx : ℕ)
    (shiftVec : ℝ × ℝ) :
    (Fin n → ℝ × ℝ) × (Fin n → ℝ × ℝ) × (Fin n → ℝ × ℝ) :=
  let error := topoErrorCoords coords kind mag affected dirs idx shiftVec
  (coords, error, fun i =>
    ((coords i).1 - (error i).1, (coords i).2 - (error i).2))

/-! ### Concrete instances used by the evaluations below -/

/-- Identity weight matrix with zero bias. -/
def idLinear (k : ℕ) : Linear k k :=
  { weight := fun o i => if (o : ℕ) = (i : ℕ) then 1 else 0, bias := fun _ => 0 }

/-- Batch normalization acting as the identity in eval mode: `gamma = 1`,
`beta = 0`, `running_mean = 0` and `running_var = 1 - eps`, hence
`invStd = 1`. -/
def idBatchNorm (k : ℕ) : BatchNorm k :=
  { gamma := fun _ => 1, beta := fun _ => 0, runningMean := fun _ => 0, invStd := fun _ => 1 }

/-- A two-channel, one-layer `GeometryGNN`: identity input embedding, zero
self transform, identity neighbor transform, identity batch normalization,
and an output head that forwards hidden channel 0 to output channel 0. -/
def leakModel : GeometryGNN 2 :=
  { inputEmbed := idLinear 2
    layers := [({ linear := { weight := fun _ _ => 0, bias := fun _ => 0 },
                  neighborLinear := idLinear 2 }, idBatchNorm 2)]
    out1 := { weight := fun _ i => if (i : ℕ) = 0 then 1 else 0, bias := fun _ => 0 }
    out2 := { weight := fun o _ => if (o : ℕ) = 0 then 1 else 0, bias := fun _ => 0 } }

/-- Three-slot batch element whose two valid slots (mask 1) hold the origin
and whose padded slot holds the origin as well. -/
def leakX : Fin 3 → Fin 2 → ℚ := fun _ _ => 0

/-- The same batch element with the padded slot changed to `(1, 0)`: it
agrees with `leakX` on every mask-1 slot. -/
def leakY : Fin 3 → Fin 2 → ℚ :=
  fun i c => if (i : ℕ) = 2 ∧ (c : ℕ) = 0 then 1 else 0

/-- Mask marking slots 0 and 1 valid and slot 2 as padding. -/
def leakMask : Fin 3 → ℚ := fun i => if (i : ℕ) ≤ 1 then 1 else 0

/-- One-element batch of three-vertex inputs with every coordinate 1. -/
def c3X : Fin 1 → Fin 3 → Fin 2 → ℚ := fun _ _ _ => 1

/-- All-ones mask for the batch `c3X`. -/
def c3Mask : Fin 1 → Fin 3 → ℚ := fun _ _ => 1

/-- A batch-normalization running state before a training-mode forward. -/
def c3State : BNRunningState :=
  { runningMean := 0, runningVar := 1, numBatchesTracked := 0 }

/-- All-zero mask on three vertices. -/
def zeroMask3 : Fin 3 → ℚ := fun _ => 0

/-- One-channel activation batch with every value 1. -/
def onesBN : Fin 1 → Fin 2 → ℚ := fun _ _ => 1

/-- All-zero batch mask. -/
def zeroMask12 : Fin 1 → Fin 2 → ℚ := fun _ _ => 0

/-- Constant offset tensor with every coordinate 1. -/
def onesT : Fin 1 → Fin 2 → Fin 2 → ℚ := fun _ _ _ => 1

/-- Constant predicted-offset tensor with every coordinate 2. -/
def c5Pred : Fin 1 → Fin 2 → Fin 2 → ℚ := fun _ _ _ => 2

/-- Constant target-offset tensor with every coordinate 1. -/
def c5Target : Fin 1 → Fin 2 → Fin 2 → ℚ := fun _ _ _ => 1

/-- Batch mask whose first position is valid and second is padding. -/
def c5Mask : Fin 1 → Fin 2 → ℚ := fun _ i => if (i : ℕ) = 0 then 1 else 0

/-- Three collinear, evenly spaced vertices `(0,0), (1,0), (2,0)`: the
middle vertex coincides with the midpoint of its neighbors. -/
noncomputable def c7Coords : Fin 3 → ℝ × ℝ := fun i => ((i : ℕ), 0)

/-- Three vertices `(0,0), (3,4), (2,0)` whose middle vertex is away from
its neighbors' midpoint. -/
noncomputable def c7GenCoords : Fin 3 → ℝ × ℝ :=
  fun i => if (i : ℕ) = 1 then (3, 4) else ((i : ℕ), 0)

/-- A stored sample with two real vertices. -/
def c6Sample : StoredSample :=
  { clean := fun k => ((k : ℚ), (k : ℚ))
    noisy := fun k => ((k : ℚ) + 1, 0)
    offsets := fun _ => (0, 1)
    n := 2 }

/-- A two-vertex chain: below the minimum vertex count 3, so the
external-source store filters it out. -/
def c8Geom : RawGeom :=
  { isRing := false, coords := [(0, 0), (1, 1)] }

/-! ## Theorems -/

/-- Claim C10: the mask parameter of `GeometryGNN.forward` is optional and
its absence means every position is treated as valid: calling the forward
pass with no mask produces the same output as calling it with an all-ones
mask. -/
theorem claim_C10_none_mask_is_all_ones :
    ∀ (d n : ℕ) [NeZero n] (m : GeometryGNN d) (x : Fin n → Fin 2 → ℚ),
      m.forwardEvalOpt x none = m.forwardEvalOpt x (some fun _ => 1) := by
  intro d n _ m x
  rfl

/-- Witness for claim C10 at a concrete model and input. -/
theorem claim_C10_witness :
    GeometryGNN.forwardEvalOpt leakModel leakX none =
      GeometryGNN.forwardEvalOpt leakModel leakX (some fun _ => 1) :=
  claim_C10_none_mask_is_all_ones 2 3 leakModel leakX

/-- Claim C2: for every synthetic sample of either perturbation mode
(uniform vertex noise, or any topology-error sub-type) the returned offset
array equals clean minus perturbed elementwise, so perturbed plus offset
recovers clean exactly, elementwise (exact equality in real arithmetic, a
fortiori within the spec's 1e-5 tolerance). -/
theorem claim_C2_offset_roundtrip :
    (∀ (n : ℕ) (clean : Fin n → ℝ × ℝ) (theta dist : Fin n → ℝ) (i : Fin n),
        ((inject_vertex_noise clean theta dist).2.1 i).1 +
            ((inject_vertex_noise clean theta dist).2.2 i).1 =
          ((inject_vertex_noise clean theta dist).1 i).1 ∧
        ((inject_vertex_noise clean theta dist).2.1 i).2 +
            ((inject_vertex_noise clean theta dist).2.2 i).2 =
          ((inject_vertex_noise clean theta dist).1 i).2) ∧
    (∀ (n : ℕ) [NeZero n] (coords : Fin n → ℝ × ℝ) (kind : TopoErrorKind)
        (mag : ℝ) (affected : Finset (Fin n)) (dirs : Fin n → ℝ × ℝ)
        (idx : ℕ) (shiftVec : ℝ × ℝ) (i : Fin n),
        ((create_topology_errors coords kind mag affected dirs idx shiftVec).2.1 i).1 +
            ((create_topology_errors coords kind mag affected dirs idx shiftVec).2.2 i).1 =
          ((create_topology_errors coords kind mag affected dirs idx shiftVec).1 i).1 ∧
        ((create_topology_errors coords kind mag affected dirs idx shiftVec).2.1 i).2 +
            ((create_topology_errors coords kind mag affected dirs idx shiftVec).2.2 i).2 =
          ((create_topology_errors coords kind mag affected dirs idx shiftVec).1 i).2) := by
  constructor
  · intro n clean theta dist i
    constructor <;> simp [inject_vertex_noise]
  · intro n _ coords kind mag affected dirs idx shiftVec i
    constructor <;> simp [create_topology_errors]

/-- Counterexample to claim C3: one training-mode forward pass through the
model modifies the model's state: the first batch-normalization layer's
running statistics change (the batch counter increments and the running
mean moves towards the batch mean 2, becoming 1/5). -/
theorem claim_C3_counterexample :
    gnnFirstBNUpdate leakModel c3X c3Mask 0 c3State ≠ c3State ∧
    (gnnFirstBNUpdate leakModel c3X c3Mask 0 c3State).numBatchesTracked = 1 ∧
    (gnnFirstBNUpdate leakModel c3X c3Mask 0 c3State).runningMean = 1 / 5 := by
  refine ⟨?_, ?_, ?_⟩
  · intro h
    have h2 := congrArg BNRunningState.numBatchesTracked h
    simp [gnnFirstBNUpdate, leakModel, bnTrainUpdate, c3State] at h2
  · rfl
  · simp only [gnnFirstBNUpdate, leakModel, bnTrainUpdate, bnBatchMean, bnMomentum,
      gnnEmbed, Linear.apply, GraphConvLayer.forward, idLinear, c3X, c3Mask, c3State,
      Fin.sum_univ_two, Fin.sum_univ_three, Fin.sum_univ_one,
      Fin.val_zero, Fin.val_one, Fin.isValue]
    norm_num

/-- Amended claim C3: in training mode (the mode `Trainer.train_epoch` puts
the model in) every forward pass through a model with at least one layer
writes the first batch-normalization layer's running statistics, so state
IS carried across calls; the original claim holds only for eval-mode
calls, where the forward pass reads but never writes model state. -/
theorem claim_C3_training_state_write (d n B : ℕ) [NeZero n] (m : GeometryGNN d)
    (x : Fin B → Fin n → Fin 2 → ℚ) (mask : Fin B → Fin n → ℚ) (c : Fin d)
    (st : BNRunningState) (hlayers : m.layers ≠ []) :
    gnnFirstBNUpdate m x mask c st ≠ st := by
  unfold gnnFirstBNUpdate
  split
  · next heq => exact absurd heq hlayers
  · next cv bn rest heq =>
      intro h
      have h2 := congrArg BNRunningState.numBatchesTracked h
      simp [bnTrainUpdate] at h2

/-- Witness for the amended claim C3 at a concrete model, batch and
state. -/
theorem claim_C3_witness :
    gnnFirstBNUpdate leakModel c3X c3Mask 1 c3State ≠ c3State :=
  claim_C3_training_state_write 2 3 1 leakModel c3X c3Mask 1 c3State
    (List.cons_ne_nil _ _)

/-- Claim C4: a fully masked batch element (mask all zeros, N = 0) gets an
exactly all-zero offset output from the forward pass; normalization never
divides by zero (the batch variance plus the batchnorm epsilon is strictly
positive, and the loss denominator `mask.sum() + 1e-8` is strictly
positive for any nonnegative mask); and on an all-zero mask the loss's
mse and smoothness components are exactly 0, a finite value. -/
theorem claim_C4_empty_mask_safe :
    (∀ (d n : ℕ) [NeZero n] (m : GeometryGNN d) (x : Fin n → Fin 2 → ℚ)
        (mask : Fin n → ℚ), (∀ i, mask i = 0) →
        ∀ i c, m.forwardEval x mask i c = 0) ∧
    (∀ (B n : ℕ) (h : Fin B → Fin n → ℚ), 0 < bnBatchVar h + bnEps) ∧
    (∀ (B n : ℕ) (mask : Fin B → Fin n → ℚ), (∀ b i, 0 ≤ mask b i) →
        0 < (∑ b, ∑ i, mask b i) + lossEps) ∧
    (∀ (B n : ℕ) [NeZero n] (pred target inputCoords : Fin B → Fin n → Fin 2 → ℚ)
        (mask : Fin B → Fin n → ℚ), (∀ b i, mask b i = 0) →
        maskedMse pred target mask = 0 ∧
        smoothnessLoss inputCoords pred mask = 0) := by
  refine ⟨?_, ?_, ?_, ?_⟩
  · intro d n _ m x mask hm i c
    simp [GeometryGNN.forwardEval, hm i]
  · intro B n h
    have hv : 0 ≤ bnBatchVar h := by
      apply div_nonneg
      · exact Finset.sum_nonneg fun b _ => Finset.sum_nonneg fun i _ => sq_nonneg _
      · positivity
    have he : (0 : ℚ) < bnEps := by norm_num [bnEps]
    linarith
  · intro B n mask hm
    have hs : 0 ≤ ∑ b, ∑ i, mask b i :=
      Finset.sum_nonneg fun b _ => Finset.sum_nonneg fun i _ => hm b i
    have he : (0 : ℚ) < lossEps := by norm_num [lossEps]
    linarith
  · intro B n _ pred target inputCoords mask hm
    constructor
    · simp [maskedMse, hm]
    · simp [smoothnessLoss, hm]

/-- Witness for claim C4 at concrete batches: a fully masked three-vertex
element gives output 0 at slot 0, the batch-variance denominator of an
all-ones activation batch is positive, the loss denominator of an all-ones
mask is positive, and mse and smoothness vanish on an all-zero mask. -/
theorem claim_C4_witness :
    GeometryGNN.forwardEval leakModel leakX zeroMask3 0 0 = 0 ∧
    0 < bnBatchVar onesBN + bnEps ∧
    0 < (∑ b, ∑ i, c3Mask b i) + lossEps ∧
    maskedMse onesT onesT zeroMask12 = 0 ∧
    smoothnessLoss onesT onesT zeroMask12 = 0 := by
  refine ⟨?_, ?_, ?_, ?_, ?_⟩
  · exact claim_C4_empty_mask_safe.1 2 3 leakModel leakX zeroMask3
      (fun i => rfl) 0 0
  · exact claim_C4_empty_mask_safe.2.1 1 2 onesBN
  · exact claim_C4_empty_mask_safe.2.2.1 1 3 c3Mask (fun b i => by norm_num [c3Mask])
  · exact (claim_C4_empty_mask_safe.2.2.2 1 2 onesT onesT onesT zeroMask12
      (fun b i => rfl)).1
  · exact (claim_C4_empty_mask_safe.2.2.2 1 2 onesT onesT onesT zeroMask12
      (fun b i => rfl)).2

/-- Claim C5: for every predicted-offsets, target-offsets and 0/1 mask, the
loss's mse component equals the sum of squared per-coordinate error over
the valid (mask = 1) positions divided by the valid-position count plus
the epsilon 1e-8; masked positions contribute to neither the numerator nor
the denominator. -/
theorem claim_C5_masked_mse (B n : ℕ) (pred target : Fin B → Fin n → Fin 2 → ℚ)
    (mask : Fin B → Fin n → ℚ) (hm : ∀ b i, mask b i = 0 ∨ mask b i = 1) :
    maskedMse pred target mask =
      (∑ b, ∑ i, if mask b i = 1 then ∑ c, (pred b i c - target b i c) ^ 2 else 0) /
        ((∑ b, ∑ i, if mask b i = 1 then (1 : ℚ) else 0) + lossEps) := by
  unfold maskedMse
  congr 1
  · refine Finset.sum_congr rfl fun b _ => Finset.sum_congr rfl fun i _ => ?_
    rcases hm b i with h | h <;> simp [h]
  · congr 1
    refine Finset.sum_congr rfl fun b _ => Finset.sum_congr rfl fun i _ => ?_
    rcases hm b i with h | h <;> simp [h]

/-- Witness for claim C5 at a concrete batch whose mask marks one of two
positions valid. -/
theorem claim_C5_witness :
    maskedMse c5Pred c5Target c5Mask =
      (∑ b, ∑ i, if c5Mask b i = 1 then ∑ c, (c5Pred b i c - c5Target b i c) ^ 2 else 0) /
        ((∑ b, ∑ i, if c5Mask b i = 1 then (1 : ℚ) else 0) + lossEps) :=
  claim_C5_masked_mse 1 2 c5Pred c5Target c5Mask
    (fun b i => by fin_cases i <;> simp [c5Mask])

/-- Claim C6: for every stored sample with true vertex count N, both store
variants return arrays of length `max_vertices` in which indices below N
hold the real perturbed-coordinate and offset data with mask 1, and
indices from N on are zero-filled with mask 0 (the external-source variant
on a nonempty cache runs exactly the padding code of the synthetic
variant). -/
theorem claim_C6_padding_rule :
    (∀ (maxV : ℕ) (s : StoredSample) (i : Fin maxV),
        ((i : ℕ) < s.n →
          (GeometryDataset.getItem maxV s).input i = s.noisy i ∧
          (GeometryDataset.getItem maxV s).target i = s.offsets i ∧
          (GeometryDataset.getItem maxV s).mask i = 1) ∧
        (s.n ≤ (i : ℕ) →
          (GeometryDataset.getItem maxV s).input i = (0, 0) ∧
          (GeometryDataset.getItem maxV s).target i = (0, 0) ∧
          (GeometryDataset.getItem maxV s).mask i = 0)) ∧
    (∀ (maxV : ℕ) (s : StoredSample) (rest : List StoredSample) (idx : ℕ),
        FGDBGeometryDataset.getItem maxV (s :: rest) idx =
          GeometryDataset.getItem maxV ((s :: rest).getD idx dummySample)) := by
  constructor
  · intro maxV s i
    constructor
    · intro h
      refine ⟨?_, ?_, ?_⟩ <;>
        simp [GeometryDataset.getItem, padVec, padMask, h]
    · intro h
      refine ⟨?_, ?_, ?_⟩ <;>
        simp [GeometryDataset.getItem, padVec, padMask, Nat.not_lt.mpr h]
  · intro maxV s rest idx
    rfl

/-- Claim C8: the external-source store keeps exactly the geometries whose
vertex count lies in [3, max_vertices]; when no geometry survives the
filter, `__len__` returns the sentinel 1 and `__getitem__` returns the
all-zero, fully masked element at every index. -/
theorem claim_C8_filter_and_empty_sentinel :
    (∀ (maxV : ℕ) (gs : List RawGeom) (g : RawGeom),
        g ∈ fgdbFilterGeoms maxV gs ↔
          g ∈ gs ∧ 3 ≤ rawNVertices g ∧ rawNVertices g ≤ maxV) ∧
    (∀ (maxV : ℕ) (synth : RawGeom → StoredSample) (gs : List RawGeom),
        fgdbFilterGeoms maxV gs = [] →
          fgdbCount (fgdbPrepareSamples maxV synth gs) = 1 ∧
          ∀ (idx : ℕ) (i : Fin maxV),
            (FGDBGeometryDataset.getItem maxV (fgdbPrepareSamples maxV synth gs) idx).mask i = 0 ∧
            (FGDBGeometryDataset.getItem maxV (fgdbPrepareSamples maxV synth gs) idx).input i = (0, 0) ∧
            (FGDBGeometryDataset.getItem maxV (fgdbPrepareSamples maxV synth gs) idx).target i = (0, 0)) := by
  constructor
  · intro maxV gs g
    simp only [fgdbFilterGeoms, List.mem_filter, fgdbKeep, Bool.not_eq_true',
      Bool.or_eq_false_iff, decide_eq_false_iff_not, Nat.not_lt]
    tauto
  · intro maxV synth gs hempty
    have hdata : fgdbPrepareSamples maxV synth gs = [] := by
      simp [fgdbPrepareSamples, hempty]
    rw [hdata]
    exact ⟨rfl, fun idx i => ⟨rfl, rfl, rfl⟩⟩

/-- Claim C1 fails on the code: the eval-mode forward pass of a concrete
one-layer network is NOT invariant to the content of the padded slots.
The inputs `leakX` and `leakY` agree at both mask-1 slots (0 and 1) and
differ only at the padded slot 2, yet the output at the valid slot 1
changes from 0 to 1: the unmasked input embedding of the padded slot
reaches slot 1 through the cyclic neighbor roll of the conv layer. -/
theorem claim_C1_padding_leak :
    leakX 0 = leakY 0 ∧ leakX 1 = leakY 1 ∧
    leakMask 0 = 1 ∧ leakMask 1 = 1 ∧ leakMask 2 = 0 ∧
    GeometryGNN.forwardEval leakModel leakX leakMask 1 0 = 0 ∧
    GeometryGNN.forwardEval leakModel leakY leakMask 1 0 = 1 ∧
    GeometryGNN.forwardEval leakModel leakX leakMask 1 0 ≠
      GeometryGNN.forwardEval leakModel leakY leakMask 1 0 := by
  have hx : GeometryGNN.forwardEval leakModel leakX leakMask 1 0 = 0 := by
    norm_num [GeometryGNN.forwardEval, gnnHead, gnnHidden, gnnLayerStep, gnnEmbed,
      GraphConvLayer.forward, Linear.apply, BatchNorm.applyEval, reluV,
      leakModel, idLinear, idBatchNorm, leakX, leakMask, List.foldl,
      Fin.sum_univ_two]
  have hy : GeometryGNN.forwardEval leakModel leakY leakMask 1 0 = 1 := by
    norm_num [GeometryGNN.forwardEval, gnnHead, gnnHidden, gnnLayerStep, gnnEmbed,
      GraphConvLayer.forward, Linear.apply, BatchNorm.applyEval, reluV,
      leakModel, idLinear, idBatchNorm, leakY, leakMask, List.foldl,
      Fin.sum_univ_two]
  refine ⟨?_, ?_, rfl, rfl, rfl, hx, hy, ?_⟩
  · funext c
    fin_cases c <;> rfl
  · funext c
    fin_cases c <;> rfl
  · rw [hx, hy]
    norm_num

/-- Counterexample to claim C7: on three collinear, evenly spaced vertices
the spike perturbation with base magnitude 1/20 leaves every vertex equal
to the clean ring (the midpoint direction is the zero vector, so the
epsilon-guarded normalization yields a zero displacement): no vertex
differs (not exactly one), and the displacement magnitude is 0, strictly
below 3 times the base magnitude. -/
theorem claim_C7_counterexample :
    spikeError c7Coords 1 (1 / 20) = c7Coords ∧
    vnorm ((spikeError c7Coords 1 (1 / 20) 1).1 - (c7Coords 1).1,
           (spikeError c7Coords 1 (1 / 20) 1).2 - (c7Coords 1).2) = 0 ∧
    (0 : ℝ) < 3 * (1 / 20) := by
  have hmid : spikeMid c7Coords 1 = (0, 0) := by
    simp only [spikeMid, cyc, c7Coords, Prod.mk.injEq]
    norm_num
  have hunit : unitDir (spikeMid c7Coords 1) = (0, 0) := by
    rw [hmid]
    simp [unitDir]
  have hspike : spikeError c7Coords 1 (1 / 20) = c7Coords := by
    funext i
    by_cases h : (i : ℕ) = 1
    · simp only [spikeError, h, if_true, hunit, cyc, c7Coords]
      norm_num [h]
    · simp [spikeError, h]
  refine ⟨hspike, ?_, by norm_num⟩
  rw [hspike]
  simp [vnorm]

/-- Amended claim C7: spike-mode topology error perturbs at most the one
chosen vertex (every other vertex equals the clean coordinates), and that
vertex's displacement magnitude is at most 3 times the configured base
error magnitude — not at least 3 times as claimed: the epsilon-guarded
direction normalization `mid / (norm(mid) + 1e-8)` has norm below 1, so
the displacement is `3 * mag * norm(mid) / (norm(mid) + 1e-8) ≤ 3 * mag`,
with equality never attained and value 0 in the degenerate collinear
case. -/
theorem claim_C7_spike_bound (n : ℕ) [NeZero n] (coords : Fin n → ℝ × ℝ)
    (idx : ℕ) (mag : ℝ) (hmag : 0 ≤ mag) (hidx : idx < n) :
    (∀ i : Fin n, (i : ℕ) ≠ idx → spikeError coords idx mag i = coords i) ∧
    vnorm ((spikeError coords idx mag ⟨idx, hidx⟩).1 - (coords ⟨idx, hidx⟩).1,
           (spikeError coords idx mag ⟨idx, hidx⟩).2 - (coords ⟨idx, hidx⟩).2) ≤
      3 * mag := by
  constructor
  · intro i hi
    simp [spikeError, hi]
  · have hcyc : cyc coords idx = coords ⟨idx, hidx⟩ := by
      simp [cyc, Nat.mod_eq_of_lt hidx]
    have heps : (0 : ℝ) < synthEps := by norm_num [synthEps]
    have hNnn : 0 ≤ vnorm (spikeMid coords idx) := Real.sqrt_nonneg _
    have hD : 0 < vnorm (spikeMid coords idx) + synthEps := by linarith
    have hval : spikeError coords idx mag ⟨idx, hidx⟩ =
        ((cyc coords idx).1 - (unitDir (spikeMid coords idx)).1 * mag * 3,
         (cyc coords idx).2 - (unitDir (spikeMid coords idx)).2 * mag * 3) := by
      simp [spikeError]
    have hfac : 0 ≤ 3 * mag / (vnorm (spikeMid coords idx) + synthEps) :=
      div_nonneg (by linarith) (le_of_lt hD)
    have harg :
        ((spikeError coords idx mag ⟨idx, hidx⟩).1 - (coords ⟨idx, hidx⟩).1) ^ 2 +
          ((spikeError coords idx mag ⟨idx, hidx⟩).2 - (coords ⟨idx, hidx⟩).2) ^ 2 =
        (3 * mag / (vnorm (spikeMid coords idx) + synthEps)) ^ 2 *
          ((spikeMid coords idx).1 ^ 2 + (spikeMid coords idx).2 ^ 2) := by
      rw [hval, hcyc]
      simp only [unitDir]
      field_simp
      ring
    have hsqrt :
        vnorm ((spikeError coords idx mag ⟨idx, hidx⟩).1 - (coords ⟨idx, hidx⟩).1,
               (spikeError coords idx mag ⟨idx, hidx⟩).2 - (coords ⟨idx, hidx⟩).2) =
        (3 * mag / (vnorm (spikeMid coords idx) + synthEps)) *
          vnorm (spikeMid coords idx) := by
      simp only [vnorm] at *
      rw [harg, Real.sqrt_mul (sq_nonneg _), Real.sqrt_sq hfac]
    rw [hsqrt]
    have hratio : vnorm (spikeMid coords idx) / (vnorm (spikeMid coords idx) + synthEps) ≤ 1 :=
      (div_le_one hD).mpr (by linarith)
    calc 3 * mag / (vnorm (spikeMid coords idx) + synthEps) * vnorm (spikeMid coords idx)
        = 3 * mag * (vnorm (spikeMid coords idx) / (vnorm (spikeMid coords idx) + synthEps)) := by
          ring
      _ ≤ 3 * mag * 1 := by
          apply mul_le_mul_of_nonneg_left hratio (by linarith)
      _ = 3 * mag := mul_one _

/-- Witness for the amended claim C7 at a concrete non-degenerate triangle
with base magnitude 1. -/
theorem claim_C7_witness :
    vnorm ((spikeError c7GenCoords 1 1 1).1 - (c7GenCoords 1).1,
           (spikeError c7GenCoords 1 1 1).2 - (c7GenCoords 1).2) ≤ 3 * 1 ∧
    spikeError c7GenCoords 1 1 0 = c7GenCoords 0 := by
  constructor
  · exact (claim_C7_spike_bound 3 c7GenCoords 1 1 zero_le_one (by norm_num)).2
  · exact (claim_C7_spike_bound 3 c7GenCoords 1 1 zero_le_one (by norm_num)).1 0 (by norm_num)

/-- Unfolding step of `runningBest`. -/
theorem runningBest_cons (best : Option ℚ) (l : ℚ) (xs : List ℚ) :
    runningBest best (l :: xs) =
      runningBest (if ltBest l best then some l else best) xs := rfl

/-- Field-wise congruence for saved checkpoints. -/
theorem savedCheckpoint_congr {e1 e2 : ℕ} {n1 n2 : String} {b1 b2 : Option ℚ}
    {h1 h2 : List ℚ} (he : e1 = e2) (hn : n1 = n2) (hb : b1 = b2)
    (hh : h1 = h2) :
    (⟨e1, n1, b1, h1⟩ : SavedCheckpoint) = ⟨e2, n2, b2, h2⟩ := by
  rw [he, hn, hb, hh]

/-- Full characterization of the checkpoints written by the training loop:
a checkpoint is written at relative epoch `k` exactly when the tracked loss
at `k` improves on the running best so far (file `best_model.pt`) or when
the 1-based epoch number is divisible by 10 (file `model_epoch_*.pt`); in
both cases the checkpoint carries the updated best loss and the metric
history of all epochs up to and including `k`. -/
theorem trainerRun_mem_iff (ls : List ℚ) (e : ℕ) (best : Option ℚ)
    (hist : List ℚ) (sf : SavedCheckpoint) :
    sf ∈ trainerRun ls e best hist ↔
      ∃ k, k < ls.length ∧
        ((ltBest (ls.getD k 0) (runningBest best (ls.take k)) = true ∧
            sf = { epoch := e + k, fileName := bestFileName,
                   bestLoss := runningBest best (ls.take (k + 1)),
                   history := hist ++ ls.take (k + 1) }) ∨
          ((e + k + 1) % 10 = 0 ∧
            sf = { epoch := e + k, fileName := epochFileName (e + k + 1),
                   bestLoss := runningBest best (ls.take (k + 1)),
                   history := hist ++ ls.take (k + 1) })) := by
  induction ls generalizing e best hist with
  | nil => simp [trainerRun]
  | cons l rest ih =>
      constructor
      · intro h
        simp only [trainerRun, List.mem_append] at h
        rcases h with (h | h) | h
        · by_cases hc : ltBest l best
          · simp only [if_pos hc, List.mem_singleton] at h
            refine ⟨0, Nat.succ_pos _, Or.inl ⟨?_, ?_⟩⟩
            · simpa [runningBest] using hc
            · simpa [runningBest_cons, runningBest, hc] using h
          · simp [if_neg hc] at h
        · by_cases hc : (e + 1) % 10 = 0
          · simp only [if_pos hc, List.mem_singleton] at h
            refine ⟨0, Nat.succ_pos _, Or.inr ⟨by simpa using hc, ?_⟩⟩
            simpa [runningBest_cons, runningBest] using h
          · simp [if_neg hc] at h
        · rcases (ih (e + 1) (if ltBest l best then some l else best)
              (hist ++ [l])).mp h with ⟨k, hk, hcase⟩
          refine ⟨k + 1, Nat.succ_lt_succ hk, ?_⟩
          rcases hcase with ⟨hc, hsf⟩ | ⟨hc, hsf⟩
          · refine Or.inl ⟨?_, ?_⟩
            · simpa [runningBest_cons] using hc
            · rw [hsf]
              simp only [List.take_succ_cons, runningBest_cons]
              exact savedCheckpoint_congr (by omega) rfl rfl
                ((List.append_cons _ _ _).symm)
          · refine Or.inr ⟨?_, ?_⟩
            · simpa [show e + 1 + k = e + (k + 1) by omega] using hc
            · rw [hsf]
              simp only [List.take_succ_cons, runningBest_cons]
              exact savedCheckpoint_congr (by omega)
                (congrArg epochFileName (by omega)) rfl
                ((List.append_cons _ _ _).symm)
      · rintro ⟨k, hk, hcase⟩
        cases k with
        | zero =>
            simp only [trainerRun, List.mem_append]
            rcases hcase with ⟨hc, hsf⟩ | ⟨hc, hsf⟩
            · have hc2 : ltBest l best = true := by simpa [runningBest] using hc
              left
              left
              rw [if_pos hc2, List.mem_singleton, hsf]
              simp [runningBest_cons, runningBest, hc2]
            · have hc2 : (e + 1) % 10 = 0 := by simpa using hc
              left
              right
              rw [if_pos hc2, List.mem_singleton, hsf]
              simp [runningBest_cons, runningBest]
        | succ j =>
            simp only [trainerRun, List.mem_append]
            right
            apply (ih (e + 1) (if ltBest l best then some l else best)
              (hist ++ [l])).mpr
            refine ⟨j, Nat.lt_of_succ_lt_succ hk, ?_⟩
            rcases hcase with ⟨hc, hsf⟩ | ⟨hc, hsf⟩
            · refine Or.inl ⟨?_, ?_⟩
              · simpa [runningBest_cons] using hc
              · rw [hsf]
                simp only [List.take_succ_cons, runningBest_cons]
                exact savedCheckpoint_congr (by omega) rfl rfl
                  (List.append_cons _ _ _)
            · refine Or.inr ⟨?_, ?_⟩
              · simpa [show e + 1 + j = e + (j + 1) by omega] using hc
              · rw [hsf]
                simp only [List.take_succ_cons, runningBest_cons]
                exact savedCheckpoint_congr (by omega)
                  (congrArg epochFileName (by omega)) rfl
                  (List.append_cons _ _ _)

/-- Claim C9: over a full training run, a checkpoint (carrying the updated
best loss and the full per-epoch metric history so far; weights, optimizer
state and config are copied verbatim) is persisted exactly in the epochs
where the tracked loss (validation loss if a validation loader is
supplied, else training loss) improves on the best seen so far, plus
unconditionally at every 10th epoch; the two triggers are independent and
both can fire in the same epoch, producing two files, as the concrete
ten-epoch run of strictly decreasing losses shows at epoch 9. -/
theorem claim_C9_checkpoint_policy :
    (∀ (trainL : List ℚ) (valL : Option (List ℚ)) (sf : SavedCheckpoint),
        sf ∈ trainerRun (trackedLosses trainL valL) 0 none [] ↔
          ∃ k, k < (trackedLosses trainL valL).length ∧
            ((ltBest ((trackedLosses trainL valL).getD k 0)
                  (runningBest none ((trackedLosses trainL valL).take k)) = true ∧
                sf = { epoch := k, fileName := bestFileName,
                       bestLoss := runningBest none ((trackedLosses trainL valL).take (k + 1)),
                       history := (trackedLosses trainL valL).take (k + 1) }) ∨
              ((k + 1) % 10 = 0 ∧
                sf = { epoch := k, fileName := epochFileName (k + 1),
                       bestLoss := runningBest none ((trackedLosses trainL valL).take (k + 1)),
                       history := (trackedLosses trainL valL).take (k + 1) }))) ∧
    ((⟨9, bestFileName, some 1, [10, 9, 8, 7, 6, 5, 4, 3, 2, 1]⟩ : SavedCheckpoint) ∈
        trainerRun [10, 9, 8, 7, 6, 5, 4, 3, 2, 1] 0 none [] ∧
      (⟨9, epochFileName 10, some 1, [10, 9, 8, 7, 6, 5, 4, 3, 2, 1]⟩ : SavedCheckpoint) ∈
        trainerRun [10, 9, 8, 7, 6, 5, 4, 3, 2, 1] 0 none []) := by
  constructor
  · intro trainL valL sf
    simpa using trainerRun_mem_iff (trackedLosses trainL valL) 0 none [] sf
  · constructor <;> decide

/-- Witness for claim C6 at a concrete sample (N = 2) in a capacity-3
store: slot 1 holds the real data with mask 1, slot 2 is zeroed with
mask 0, and the external-source variant agrees on a nonempty cache. -/
theorem claim_C6_witness :
    (GeometryDataset.getItem 3 c6Sample).input 1 = c6Sample.noisy 1 ∧
    (GeometryDataset.getItem 3 c6Sample).mask 1 = 1 ∧
    (GeometryDataset.getItem 3 c6Sample).input 2 = (0, 0) ∧
    (GeometryDataset.getItem 3 c6Sample).target 2 = (0, 0) ∧
    (GeometryDataset.getItem 3 c6Sample).mask 2 = 0 ∧
    FGDBGeometryDataset.getItem 3 [c6Sample] 0 =
      GeometryDataset.getItem 3 ([c6Sample].getD 0 dummySample) := by
  refine ⟨?_, ?_, ?_, ?_, ?_, ?_⟩
  · exact ((claim_C6_padding_rule.1 3 c6Sample 1).1 (by decide)).1
  · exact ((claim_C6_padding_rule.1 3 c6Sample 1).1 (by decide)).2.2
  · exact ((claim_C6_padding_rule.1 3 c6Sample 2).2 (by decide)).1
  · exact ((claim_C6_padding_rule.1 3 c6Sample 2).2 (by decide)).2.1
  · exact ((claim_C6_padding_rule.1 3 c6Sample 2).2 (by decide)).2.2
  · exact claim_C6_padding_rule.2 3 c6Sample [] 0

/-- Witness for claim C8 on a store whose only geometry has 2 vertices:
nothing survives the filter, the sentinel count is 1, and index 0 of the
resulting store is fully masked and all zero. -/
theorem claim_C8_witness :
    fgdbCount (fgdbPrepareSamples 500 (fun _ => dummySample) [c8Geom]) = 1 ∧
    (FGDBGeometryDataset.getItem 500
        (fgdbPrepareSamples 500 (fun _ => dummySample) [c8Geom]) 0).mask 7 = 0 ∧
    (FGDBGeometryDataset.getItem 500
        (fgdbPrepareSamples 500 (fun _ => dummySample) [c8Geom]) 0).input 7 = (0, 0) := by
  have h := claim_C8_filter_and_empty_sentinel.2 500 (fun _ => dummySample) [c8Geom]
    (by rfl)
  exact ⟨h.1, (h.2 0 7).1, (h.2 0 7).2.1⟩
